import Mathlib

/-!
Shallow embedding of the WhatDoTheyKnow FOI search engine (`src/main.py`).

The two core functions of the repository are translated here:

* `search_whatdotheyknow` (main.py lines 52-167): fetch the search page with a
  retry loop, then locate the first result via three ordered strategies.
* `find_pdf_links_on_page` (main.py lines 169-311): classify every anchor of a
  result page, resolve URLs, infer names and sizes, deduplicate and cap at 5.

Network I/O is abstracted into an environment: the outcome of each GET attempt
for the search page, and the outcome of the single GET of the result page.
HTML documents are modelled as flat lists of elements in document order, each
element carrying its tag, its `href` attribute, its visible text
(`get_text(strip=True)` and `get_text()`), and its ancestor chain
(nearest first), which is what BeautifulSoup's `find`, `find_next`,
`find_all` and `find_parent` traversals read.
-/

namespace WDTK

/-! ## String helpers mirroring Python string operations -/

/-- Does `pat` occur as a contiguous sublist of `s` (tried at every start)? -/
def listContains : List Char → List Char → Bool
  | s, pat =>
    match s with
    | [] => pat.isEmpty
    | _ :: rest => pat.isPrefixOf s || listContains rest pat

/-- Python `pat in s` (substring test). -/
def strContains (s pat : String) : Bool := listContains s.toList pat.toList

/-- Python `s.startswith(pat)`. -/
def strStartsWith (s pat : String) : Bool := pat.toList.isPrefixOf s.toList

/-- Python `s.endswith(pat)`. -/
def strEndsWith (s pat : String) : Bool := pat.toList.isSuffixOf s.toList

/-- Python `s.lower()` (ASCII case folding). -/
def lowerStr (s : String) : String := ⟨s.toList.map Char.toLower⟩

/-- Python slicing `s[:n]`. -/
def strTake (s : String) (n : Nat) : String := ⟨s.toList.take n⟩

/-- Helper for `splitChar`: accumulates the current chunk (reversed). -/
def splitCharAux (c : Char) : List Char → List Char → List String
  | [], acc => [⟨acc.reverse⟩]
  | x :: xs, acc =>
      if x = c then ⟨acc.reverse⟩ :: splitCharAux c xs []
      else splitCharAux c xs (x :: acc)

/-- Python `s.split(c)` for a single-character separator. -/
def splitChar (c : Char) (s : String) : List String := splitCharAux c s.toList []

/-- Value of a hexadecimal digit, if the character is one. -/
def hexVal (ch : Char) : Option Nat :=
  if '0' ≤ ch ∧ ch ≤ '9' then some (ch.toNat - 48)
  else if 'a' ≤ ch ∧ ch ≤ 'f' then some (ch.toNat - 87)
  else if 'A' ≤ ch ∧ ch ≤ 'F' then some (ch.toNat - 55)
  else none

/-- Python `urllib.parse.unquote`: decode `%XX` escapes; malformed escapes are
left untouched.  (Multi-byte UTF-8 sequences are decoded byte-by-byte here;
the repository only ever feeds it URL path segments.) -/
def unquoteList : List Char → List Char
  | '%' :: a :: b :: rest =>
      match hexVal a, hexVal b with
      | some x, some y => Char.ofNat (16 * x + y) :: unquoteList rest
      | _, _ => '%' :: unquoteList (a :: b :: rest)
  | c :: rest => c :: unquoteList rest
  | [] => []

/-- Python regex word character (`\w` / `\b` boundary test, ASCII). -/
def isWordChar (c : Char) : Bool := c.isAlphanum || c = '_'

/-! ## Regex engines for the two patterns used by the source

`re.search(r'(\d+(?:\.\d+)?)\s*(KB|MB|GB|K|M|G)\b', text, re.IGNORECASE)` and
`re.search(r'(\d+(?:\.\d+)?)(K|M|G)\b', ...)` (size inference), and
`re.search(r'([^\s]+\.pdf)', text, re.IGNORECASE)` (filename recovery).
Matching is leftmost with greedy quantifiers, exactly as `re.search` behaves
on these patterns (no backtracking can change the outcome for them, except
the ordered alternation of units, which is implemented in pattern order). -/

/-- Match the characters of `pat` case-insensitively at the head of `cs`,
returning the remainder. -/
def stripCI : List Char → List Char → Option (List Char)
  | [], cs => some cs
  | p :: ps, c :: cs => if c.toLower = p.toLower then stripCI ps cs else none
  | _ :: _, [] => none

/-- True when a word boundary (`\b`) holds before the given remainder. -/
def boundaryOk : List Char → Bool
  | [] => true
  | c :: _ => !(isWordChar c)

/-- Try the unit alternatives in pattern order (case-insensitive), requiring a
word boundary after the unit; returns the alternative as written in the
pattern (uppercase), i.e. `match.group(2).upper()`. -/
def matchUnit : List String → List Char → Option String
  | [], _ => none
  | u :: us, cs =>
      match stripCI u.toList cs with
      | some rest => if boundaryOk rest then some u else matchUnit us cs
      | none => matchUnit us cs

/-- Match `\d+(?:\.\d+)?` at the head of `cs`; returns the number's characters
and the remainder. -/
def matchNumber (cs : List Char) : Option (List Char × List Char) :=
  let p := cs.span (fun c => c.isDigit)
  if p.1.isEmpty then none
  else
    match p.2 with
    | '.' :: rest2 =>
        let q := rest2.span (fun c => c.isDigit)
        if q.1.isEmpty then some (p.1, p.2)
        else some (p.1 ++ '.' :: q.1, q.2)
    | _ => some (p.1, p.2)

/-- Attempt size pattern 1, `(\d+(?:\.\d+)?)\s*(KB|MB|GB|K|M|G)\b`, anchored at
the head of `cs`; returns (group 1, group 2 uppercased). -/
def sizeMatch1At (cs : List Char) : Option (String × String) :=
  match matchNumber cs with
  | none => none
  | some (num, rest) =>
      match matchUnit ["KB", "MB", "GB", "K", "M", "G"] (rest.dropWhile Char.isWhitespace) with
      | some u => some (⟨num⟩, u)
      | none => none

/-- Attempt size pattern 2, `(\d+(?:\.\d+)?)(K|M|G)\b`, anchored at the head. -/
def sizeMatch2At (cs : List Char) : Option (String × String) :=
  match matchNumber cs with
  | none => none
  | some (num, rest) =>
      match matchUnit ["K", "M", "G"] rest with
      | some u => some (⟨num⟩, u)
      | none => none

/-- `re.search` scanning for size pattern 1: try every start position, leftmost
match wins. -/
def searchSize1 : List Char → Option (String × String)
  | [] => none
  | c :: cs =>
      match sizeMatch1At (c :: cs) with
      | some r => some r
      | none => searchSize1 cs

/-- `re.search` scanning for size pattern 2. -/
def searchSize2 : List Char → Option (String × String)
  | [] => none
  | c :: cs =>
      match sizeMatch2At (c :: cs) with
      | some r => some r
      | none => searchSize2 cs

/-- Unit normalization from main.py lines 281-286 (K→KB, M→MB, G→GB). -/
def normalizeUnit (u : String) : String :=
  if u = "K" ∨ u = "KB" then "KB"
  else if u = "M" ∨ u = "MB" then "MB"
  else if u = "G" ∨ u = "GB" then "GB"
  else u

/-- The size-inference loop of main.py lines 271-288: try pattern 1, then
pattern 2, first match wins; `none` when neither matches. -/
def sizeFromText (t : String) : Option String :=
  match searchSize1 t.toList with
  | some r => some (r.1 ++ " " ++ normalizeUnit r.2)
  | none =>
      match searchSize2 t.toList with
      | some r => some (r.1 ++ " " ++ normalizeUnit r.2)
      | none => none

/-- Largest `k ≥ 1` (searched downward from the given bound) such that the four
characters of `run` starting at `k` spell `.pdf` case-insensitively: the
greedy `[^\s]+` keeps as much as possible before the literal `\.pdf`. -/
def bestK (run : List Char) : Nat → Option Nat
  | 0 => none
  | k + 1 =>
      if ((run.drop (k + 1)).take 4).map Char.toLower = ['.', 'p', 'd', 'f'] then some (k + 1)
      else bestK run k

/-- Attempt `([^\s]+\.pdf)` (IGNORECASE) anchored at the head of `cs`. -/
def pdfNameAt (cs : List Char) : Option String :=
  let run := cs.takeWhile (fun c => !c.isWhitespace)
  match bestK run run.length with
  | some k => some ⟨run.take (k + 4)⟩
  | none => none

/-- `re.search(r'([^\s]+\.pdf)', text, re.IGNORECASE)`: leftmost match. -/
def searchPdfName : List Char → Option String
  | [] => none
  | c :: cs =>
      match pdfNameAt (c :: cs) with
      | some r => some r
      | none => searchPdfName cs

/-! ## Document model

A parsed HTML page is a list of elements in document order.  BeautifulSoup
queries used by the source (`find`, `find_next`, `find_all`) are scans of that
order; `find_parent` walks the ancestor chain stored with each element. -/

/-- An ancestor element as seen through `find_parent`: only its tag and text
are ever read by the source. -/
structure Anc where
  tag : String
  textStrip : String
  textRaw : String
deriving Repr, DecidableEq

/-- An element of the page: tag, optional `href` attribute, visible text
(`get_text(strip=True)` as `textStrip`, plain `get_text()` as `textRaw`),
and the chain of its ancestors, nearest first. -/
structure Node where
  tag : String
  href : Option String
  textStrip : String
  textRaw : String
  ancestors : List Anc
deriving Repr, DecidableEq

/-- A page in document order. -/
abbrev Doc := List Node

/-- `element.find_parent([tags])`: nearest ancestor whose tag is in `tags`. -/
def findParentTag (tags : List String) (n : Node) : Option Anc :=
  n.ancestors.find? (fun a => tags.contains a.tag)

/-- An attachment record as built by `find_pdf_links_on_page`
(the `pdf_info` dict of main.py lines 290-294). -/
structure Attachment where
  name : String
  url : String
  size : String
deriving Repr, DecidableEq

/-- The fixed site origin used to resolve relative links. -/
def baseOrigin : String := "https://www.whatdotheyknow.com"

/-! ## find_pdf_links_on_page (main.py lines 169-311) -/

/-- Pattern 1 name (line 222): `href.split('/')[-1].split('?')[0]`. -/
def lastSegName (href : String) : String :=
  ((splitChar '?' ((splitChar '/' href).getLastD "")).headD "")

/-- Pattern 2 name (lines 229-236): walk the `/`-separated parts of the href;
at the first part equal to `attach` with at least two parts after it, take
the part two positions later, strip its query string, percent-decode it.
If no such part is found the name stays empty. -/
def attachNameGo : List String → Option String
  | "attach" :: _ :: c :: _ => some ⟨unquoteList ((splitChar '?' c).headD "").toList⟩
  | _ :: rest => attachNameGo rest
  | [] => none

/-- Pattern 2 name extraction from a full href. -/
def attachName (href : String) : String :=
  (attachNameGo (splitChar '/' href)).getD ""

/-- Pattern 3 name (lines 243-250): search the nearest `li`/`div`/`p`/`td`
ancestor's stripped text for a `filename.pdf` token. -/
def downloadName (link : Node) : String :=
  match findParentTag ["li", "div", "p", "td"] link with
  | some c => (searchPdfName c.textStrip.toList).getD ""
  | none => ""

/-- The three ordered PDF-detection patterns (lines 219-250); returns
`(is_pdf, pdf_name)`. -/
def classify (link : Node) (href : String) : Bool × String :=
  if strEndsWith (lowerStr href) ".pdf" then
    (true, lastSegName href)
  else if strContains href "/response/" && strContains href "/attach/" &&
      strContains href ".pdf" && !(strContains href "/attach/html/") then
    (true, attachName href)
  else if strContains (lowerStr link.textStrip) "download" && strContains href ".pdf" &&
      !(strContains href ".html") then
    (true, downloadName link)
  else
    (false, "")

/-- URL resolution (lines 253-259): root-relative hrefs are prefixed with the
site origin, hrefs not starting with `http` are treated as site-root
relative, anything else passes through. -/
def resolveHref (href : String) : String :=
  if strStartsWith href "/" then baseOrigin ++ href
  else if !(strStartsWith href "http") then baseOrigin ++ "/" ++ href
  else href

/-- Name fallback and truncation (lines 261-263, 291): an empty name becomes
the link text when that itself mentions `.pdf`, else `document.pdf`; the
result is sliced to 100 characters. -/
def finalName (pdfName linkText : String) : String :=
  let n :=
    if pdfName = "" then
      if linkText ≠ "" && strContains (lowerStr linkText) ".pdf" then linkText
      else "document.pdf"
    else pdfName
  strTake n 100

/-- Size inference (lines 265-288): search the unstripped text of the nearest
`li`/`div`/`section`/`article` ancestor; default `"Size unknown"`. -/
def linkSize (link : Node) : String :=
  match findParentTag ["li", "div", "section", "article"] link with
  | none => "Size unknown"
  | some c =>
      match sizeFromText c.textRaw with
      | some s => s
      | none => "Size unknown"

/-- Build the `pdf_info` record for a classified link. -/
def mkAttachment (link : Node) (href : String) (pdfName : String) : Attachment :=
  { name := finalName pdfName link.textStrip
    url := resolveHref href
    size := linkSize link }

/-- Duplicate check (lines 296-302): an exact match on name or URL against any
previously accepted attachment. -/
def isDup (acc : List Attachment) (a : Attachment) : Bool :=
  acc.any (fun e => e.name == a.name || e.url == a.url)

/-- `soup.find_all('a', href=True)`: anchors carrying an href attribute,
in document order. -/
def allAnchors (doc : Doc) : List (Node × String) :=
  doc.filterMap (fun n =>
    match n.href with
    | some h => if n.tag = "a" then some (n, h) else none
    | none => none)

/-- The body of the `for link in all_links` loop (lines 206-305) for one link:
skip empty hrefs, classify, build the record, append unless duplicate. -/
def processLink (acc : List Attachment) (nh : Node × String) : List Attachment :=
  if nh.2 = "" then acc
  else
    let c := classify nh.1 nh.2
    if c.1 then
      let a := mkAttachment nh.1 nh.2 c.2
      if isDup acc a then acc else acc ++ [a]
    else acc

/-- The full accumulation over every anchor of the page. -/
def collectPdfLinks (doc : Doc) : List Attachment :=
  (allAnchors doc).foldl processLink []

/-- Outcome of the GET performed by `find_pdf_links_on_page`:
either some exception was raised while fetching or parsing (every exception is
caught at lines 309-311), or a response arrived with a status code and, when
it is 200, a parsed document. -/
inductive ResultFetch where
  | exn
  | status (code : Nat) (doc : Doc)
deriving Repr, DecidableEq

/-- `find_pdf_links_on_page` (lines 169-311): empty list on exception or
non-200 status, otherwise the collected attachments capped at 5
(`pdf_links[:5]`, line 307).  The courtesy delay (line 178) and the dead
`attachment_sections` computation (lines 194-201, its result is never read)
have no effect on the return value. -/
def find_pdf_links_on_page (rf : ResultFetch) : List Attachment :=
  match rf with
  | .exn => []
  | .status code doc => if code ≠ 200 then [] else (collectPdfLinks doc).take 5

/-! ## search_whatdotheyknow (main.py lines 52-167) -/

/-- Outcome of one `session.get(search_url, ...)` attempt inside the retry
loop: an HTTP response (with the parsed document for its body), a
`ConnectionError`/`Timeout` (both caught at line 100 with the same handler),
or any other `requests` exception, which the loop does not catch. -/
inductive Attempt where
  | status (code : Nat) (doc : Doc)
  | connError (msg : String)
  | otherExn (msg : String)
deriving Repr, DecidableEq

/-- The status code of an attempt, when it produced a response. -/
def attemptCode : Attempt → Option Nat
  | .status c _ => some c
  | _ => none

/-- How the retry loop ended: a body to parse (`break` at line 98), one of the
three give-up returns on the final attempt, an HTTPError raised by
`raise_for_status` (line 97), another exception raised by `get`, or — were the
loop to run zero times — the `NameError` on the unbound `response` at
line 106 (caught by the outer `except Exception`). -/
inductive FetchRes where
  | ok (doc : Doc)
  | fail503
  | fail429
  | failConn (msg : String)
  | httpExn (code : Nat)
  | otherExn (msg : String)
  | nameError
deriving Repr, DecidableEq

/-- One iteration of the retry loop (lines 77-103): `some r` exits the loop
with `r`; `none` is the `continue` taken on a transient failure before the
final attempt.  `raise_for_status` raises exactly for 4xx/5xx codes. -/
def fetchStep (a : Attempt) (isLast : Bool) : Option FetchRes :=
  match a with
  | .status code doc =>
      if code = 503 then (if isLast then some .fail503 else none)
      else if code = 429 then (if isLast then some .fail429 else none)
      else if 400 ≤ code ∧ code ≤ 599 then some (.httpExn code)
      else some (.ok doc)
  | .connError msg => if isLast then some (.failConn msg) else none
  | .otherExn msg => some (.otherExn msg)

/-- The retry loop from attempt `i` with the given remaining budget; returns
the loop outcome, the number of attempts executed, and the number of
backoff sleeps performed (a sleep precedes every attempt except the first,
line 80). -/
def runFetch (att : Nat → Attempt) : Nat → Nat → FetchRes × Nat × Nat
  | _, 0 => (.nameError, 0, 0)
  | i, r + 1 =>
      match fetchStep (att i) (r == 0) with
      | some res => (res, 1, if 0 < i then 1 else 0)
      | none =>
          let p := runFetch att (i + 1) r
          (p.1, p.2.1 + 1, (if 0 < i then 1 else 0) + p.2.2)

/-- `max_retries = 3` (line 76). -/
def maxRetries : Nat := 3

/-- The value returned by `search_whatdotheyknow`.  The function is annotated
`-> tuple[bool, str, str, str, list]`, but the returns at lines 89, 94 and
102 produce a 4-tuple (success, title, url, snippet) with no pdf_links
element, so the model distinguishes both shapes. -/
inductive PyRet where
  | four (success : Bool) (title url snippet : String)
  | five (success : Bool) (title url snippet : String) (links : List Attachment)
deriving Repr, DecidableEq

/-- The first four components, common to both tuple shapes. -/
def PyRet.core : PyRet → Bool × String × String × String
  | .four b t u s => (b, t, u, s)
  | .five b t u s _ => (b, t, u, s)

/-- The single quote character, used inside the method-3 message. -/
def sq : String := "\x27"

/-- Return at line 89. -/
def msg503 : String :=
  "WhatDoTheyKnow.com is currently under heavy load or maintenance. Please try again in a few minutes."

/-- Return at line 94. -/
def msg429 : String :=
  "Rate limited by WhatDoTheyKnow.com. Please wait a moment and try again."

/-- Modelled from the spec: the human-readable text of the `HTTPError` raised
by `requests`' `raise_for_status` — produced inside the external `requests`
library, so only its shape is modelled; no claim depends on its content. -/
def httpErrText (code : Nat) : String := toString code ++ " Error"

/-- The text of the `NameError` raised at line 106 when the loop body never
ran (never happens with `max_retries = 3`). -/
def nameErrText : String := "name " ++ sq ++ "response" ++ sq ++ " is not defined"

/-- The heading matcher of method 1 (line 109): an `h2` whose string is
nonempty and contains both `FOI requests` and `of`. -/
def isFoiHeading (n : Node) : Bool :=
  n.tag == "h2" && n.textStrip != "" &&
    strContains n.textStrip "FOI requests" && strContains n.textStrip "of"

/-- The elements after the first matching heading, in document order
(`find_next` iterates exactly those); `none` when no heading matches. -/
def afterHeading : List Node → Option (List Node)
  | [] => none
  | n :: rest => if isFoiHeading n then some rest else afterHeading rest

/-- The `while` scan at lines 113-115: first following anchor whose href
starts with `/request/` (a missing href reads as `''`, line 114). -/
def foiAnchorPred (n : Node) : Bool :=
  n.tag == "a" && strStartsWith (n.href.getD "") "/request/"

/-- Method 1 (lines 109-117): the anchor found after the FOI-requests
heading, if both exist. -/
def method1Anchor (doc : Doc) : Option Node :=
  (afterHeading doc).bind (List.find? foiAnchorPred)

/-- Method 1 snippet (lines 123-129): the stripped text of the immediate
parent, truncated to 300 characters plus `...` only when longer. -/
def method1Snippet (n : Node) : String :=
  match n.ancestors.head? with
  | none => ""
  | some p =>
      if p.textStrip.length > 300 then strTake p.textStrip 300 ++ "..." else p.textStrip

/-- The filter of method 2 (line 136): anchors whose href contains
`/request/` and does not start with `javascript`. -/
def method2Pred (n : Node) : Bool :=
  n.tag == "a" &&
    (match n.href with
     | none => false
     | some h => h != "" && strContains h "/request/" && !(strStartsWith h "javascript"))

/-- Method 2 snippet (lines 145-148): the stripped text of the nearest
`div`/`article`/`section`/`p` ancestor sliced to 300 characters with `...`
appended unconditionally; empty when there is no such ancestor. -/
def method2Snippet (n : Node) : String :=
  match findParentTag ["div", "article", "section", "p"] n with
  | none => ""
  | some c => strTake c.textStrip 300 ++ "..."

/-- Python `s or default` for strings. -/
def orDefault (s dflt : String) : String := if s = "" then dflt else s

/-- Method 3 (lines 154-160): inspect the `title` element. -/
def method3 (query : String) (doc : Doc) : PyRet :=
  match doc.find? (fun n => n.tag == "title") with
  | some t =>
      if strContains (lowerStr t.textStrip) "search" then
        .five false "" ""
          ("Search completed but no results found for " ++ sq ++ query ++ sq ++
            ". Try different keywords.") []
      else .five false "" "" "No search results found or page could not be parsed" []
  | none => .five false "" "" "No search results found or page could not be parsed" []

/-- The environment a run of the engine observes: the outcome of each attempt
to GET the search page, and the outcome of the nested GET of the result
page performed by `find_pdf_links_on_page`. -/
structure Env where
  att : Nat → Attempt
  rf : ResultFetch

/-- The parsing phase (lines 105-160) applied to the fetched search page. -/
def parsePhase (query : String) (env : Env) (doc : Doc) : PyRet :=
  match method1Anchor doc with
  | some a =>
      .five true a.textStrip (baseOrigin ++ a.href.getD "")
        (orDefault (method1Snippet a) "No description available")
        (find_pdf_links_on_page env.rf)
  | none =>
      match doc.find? method2Pred with
      | some a =>
          .five true a.textStrip (baseOrigin ++ a.href.getD "")
            (orDefault (method2Snippet a) "FOI request found")
            (find_pdf_links_on_page env.rf)
      | none => method3 query doc

/-- `search_whatdotheyknow` (lines 52-167): run the retry loop, then either
parse the body or map the loop's failure to the corresponding return —
the 4-tuples at lines 89/94/102, or the outer exception handlers at
lines 162-167. -/
def search_whatdotheyknow (query : String) (env : Env) : PyRet :=
  match runFetch env.att 0 maxRetries with
  | (.ok doc, _, _) => parsePhase query env doc
  | (.fail503, _, _) => .four false "" "" msg503
  | (.fail429, _, _) => .four false "" "" msg429
  | (.failConn m, _, _) => .four false "" "" ("Connection failed: " ++ m)
  | (.httpExn code, _, _) => .five false "" "" ("Search request failed: " ++ httpErrText code) []
  | (.otherExn m, _, _) => .five false "" "" ("Search request failed: " ++ m) []
  | (.nameError, _, _) => .five false "" "" ("Search error: " ++ nameErrText) []

/-- The guard of the "showing first 3 of N" note in `search_command`
(main.py line 369): `len(pdf_links) > 10`. -/
def showNoteGuard (l : List Attachment) : Bool := decide (10 < l.length)

/-! ## Helper lemmas -/

theorem strTake_length (s : String) (n : Nat) : (strTake s n).length ≤ n :=
  List.length_take_le n s.data

theorem strLen_append (a b : String) : (a ++ b).length = a.length + b.length :=
  List.length_append a.data b.data

theorem find_pdf_len_le5 (rf : ResultFetch) : (find_pdf_links_on_page rf).length ≤ 5 := by
  cases rf with
  | exn => simp [find_pdf_links_on_page]
  | status code doc =>
      by_cases h : code = 200 <;>
        simp [find_pdf_links_on_page, h, List.length_take_le]

/-- One unfolding step of the retry loop. -/
theorem runFetch_succ (att : Nat → Attempt) (i r : Nat) :
    runFetch att i (r + 1) =
      match fetchStep (att i) (r == 0) with
      | some res => (res, 1, if 0 < i then 1 else 0)
      | none =>
          let p := runFetch att (i + 1) r
          (p.1, p.2.1 + 1, (if 0 < i then 1 else 0) + p.2.2) := rfl

/-- When every attempt makes `fetchStep` succeed only on the last try with a
fixed result, the loop uses its whole budget and sleeps before every attempt
but the first. -/
theorem runFetch_transient (att : Nat → Attempt) (res : FetchRes)
    (h : ∀ i isLast, fetchStep (att i) isLast = if isLast then some res else none) :
    ∀ r i, runFetch att i (r + 1) = (res, r + 1, r + (if 0 < i then 1 else 0)) := by
  intro r
  induction r with
  | zero =>
      intro i
      rw [runFetch_succ, show ((0 : Nat) == 0) = true from rfl, h i true]
      simp
  | succ r ih =>
      intro i
      rw [runFetch_succ, show ((r + 1 : Nat) == 0) = false from rfl, h i false]
      simp only [Bool.false_eq_true, if_false, ih (i + 1)]
      rw [if_pos (Nat.succ_pos i)]
      show (res, (r + 1) + 1, (if 0 < i then 1 else 0) + (r + 1)) =
        (res, r + 1 + 1, r + 1 + (if 0 < i then 1 else 0))
      rw [Nat.add_comm (if 0 < i then 1 else 0) (r + 1)]

/-- All-503 environments drive every `fetchStep` to the transient behaviour. -/
theorem fetchStep_of_all503 (att : Nat → Attempt) (h : ∀ i, attemptCode (att i) = some 503) :
    ∀ i isLast, fetchStep (att i) isLast = if isLast then some FetchRes.fail503 else none := by
  intro i isLast
  have hi := h i
  cases ha : att i with
  | status c d =>
      rw [ha] at hi; simp [attemptCode] at hi; subst hi; simp [fetchStep]
  | connError m => rw [ha] at hi; simp [attemptCode] at hi
  | otherExn m => rw [ha] at hi; simp [attemptCode] at hi

/-- All-429 environments drive every `fetchStep` to the transient behaviour. -/
theorem fetchStep_of_all429 (att : Nat → Attempt) (h : ∀ i, attemptCode (att i) = some 429) :
    ∀ i isLast, fetchStep (att i) isLast = if isLast then some FetchRes.fail429 else none := by
  intro i isLast
  have hi := h i
  cases ha : att i with
  | status c d =>
      rw [ha] at hi; simp [attemptCode] at hi; subst hi; simp [fetchStep]
  | connError m => rw [ha] at hi; simp [attemptCode] at hi
  | otherExn m => rw [ha] at hi; simp [attemptCode] at hi

/-! ## Concrete environments used as failing inputs and witnesses -/

/-- Every attempt of the search-page fetch answers HTTP 503. -/
def env503 : Env := { att := fun _ => .status 503 [], rf := .exn }

/-- Every attempt of the search-page fetch answers HTTP 429. -/
def env429 : Env := { att := fun _ => .status 429 [], rf := .exn }

/-- Every attempt of the search-page fetch raises a connection error. -/
def envConn : Env := { att := fun _ => .connError "timed out", rf := .exn }

/-! ## Claims -/

/-- C1: the claim says every failure case resolves to the declared 5-tuple
shape `(success, title, url, snippet, pdf_links)` with an attachment list.
The code contradicts its own annotation and docstring: the 503-, 429- and
connection-failure exhaustion returns at lines 89, 94 and 102 are 4-tuples
with no attachment list, which the claimed shape can never equal.  (The
caller's 5-way unpacking of such a value raises a `ValueError` at line 345.) -/
theorem C1_failure_shape :
    search_whatdotheyknow "police" env503 = .four false "" "" msg503 ∧
    search_whatdotheyknow "police" env429 = .four false "" "" msg429 ∧
    search_whatdotheyknow "police" envConn = .four false "" "" "Connection failed: timed out" :=
  ⟨rfl, rfl, rfl⟩

/-- C2: when every attempt yields HTTP 503 (resp. 429), the engine makes
exactly `maxRetries = 3` attempts, sleeping with backoff before each attempt
except the first (2 sleeps), and then returns success=false with a reason
mentioning "heavy load or maintenance" (resp. "rate limited",
case-insensitively). -/
theorem C2_retry_exhaustion :
    (∀ (q : String) (env : Env), (∀ i, attemptCode (env.att i) = some 503) →
      runFetch env.att 0 maxRetries = (.fail503, maxRetries, maxRetries - 1) ∧
      search_whatdotheyknow q env = .four false "" "" msg503 ∧
      strContains (lowerStr msg503) "heavy load or maintenance" = true) ∧
    (∀ (q : String) (env : Env), (∀ i, attemptCode (env.att i) = some 429) →
      runFetch env.att 0 maxRetries = (.fail429, maxRetries, maxRetries - 1) ∧
      search_whatdotheyknow q env = .four false "" "" msg429 ∧
      strContains (lowerStr msg429) "rate limited" = true) := by
  constructor
  · intro q env h
    have hrun := runFetch_transient env.att .fail503 (fetchStep_of_all503 env.att h) 2 0
    simp only [Nat.lt_irrefl, if_false] at hrun
    refine ⟨by simpa [maxRetries] using hrun, ?_, by decide⟩
    simp [search_whatdotheyknow, maxRetries, hrun]
  · intro q env h
    have hrun := runFetch_transient env.att .fail429 (fetchStep_of_all429 env.att h) 2 0
    simp only [Nat.lt_irrefl, if_false] at hrun
    refine ⟨by simpa [maxRetries] using hrun, ?_, by decide⟩
    simp [search_whatdotheyknow, maxRetries, hrun]

/-- C2 witness: the all-503 and all-429 environments instantiate the claim. -/
theorem C2_retry_exhaustion_witness :
    runFetch env503.att 0 maxRetries = (.fail503, maxRetries, maxRetries - 1) ∧
    runFetch env429.att 0 maxRetries = (.fail429, maxRetries, maxRetries - 1) :=
  ⟨(C2_retry_exhaustion.1 "q" env503 (fun _ => rfl)).1,
   (C2_retry_exhaustion.2 "q" env429 (fun _ => rfl)).1⟩

/-- Method 3 always reports a failure: success=false, empty fields, a reason
string, and an empty attachment list. -/
theorem method3_shape (q : String) (d : Doc) :
    ∃ r, method3 q d = PyRet.five false "" "" r [] := by
  unfold method3
  cases d.find? (fun n => n.tag == "title") with
  | none => exact ⟨_, rfl⟩
  | some t =>
      dsimp only
      split
      · exact ⟨_, rfl⟩
      · exact ⟨_, rfl⟩

/-- Anatomy of every found result: it comes from a method-1 or method-2
anchor, its URL is the site origin plus the anchor's href, its snippet is the
corresponding snippet-with-default, its attachment list is exactly the output
of `find_pdf_links_on_page`, and the first four components do not depend on
the result-page fetch outcome. -/
theorem found_result_shape (q : String) (env : Env) (t u s : String) (l : List Attachment)
    (h : search_whatdotheyknow q env = .five true t u s l) :
    ∃ n : Node,
      u = baseOrigin ++ (n.href.getD "") ∧
      (s = orDefault (method1Snippet n) "No description available" ∨
       s = orDefault (method2Snippet n) "FOI request found") ∧
      l = find_pdf_links_on_page env.rf ∧
      (∀ rf2 : ResultFetch,
        search_whatdotheyknow q { att := env.att, rf := rf2 } =
          .five true t u s (find_pdf_links_on_page rf2)) := by
  unfold search_whatdotheyknow parsePhase at h ⊢
  dsimp only at h ⊢
  rcases hrun : runFetch env.att 0 maxRetries with ⟨fr, n2, s2⟩
  rw [hrun] at h
  cases fr with
  | ok d =>
      dsimp only at h ⊢
      cases hm1 : method1Anchor d with
      | some a =>
          rw [hm1] at h
          dsimp only at h
          simp only [PyRet.five.injEq] at h
          obtain ⟨-, ht, hu, hs, hl⟩ := h
          refine ⟨a, hu.symm, Or.inl hs.symm, hl.symm, fun rf2 => ?_⟩
          dsimp only
          rw [ht, hu, hs]
      | none =>
          rw [hm1] at h
          dsimp only at h
          cases hm2 : d.find? method2Pred with
          | some a =>
              rw [hm2] at h
              dsimp only at h
              simp only [PyRet.five.injEq] at h
              obtain ⟨-, ht, hu, hs, hl⟩ := h
              refine ⟨a, hu.symm, Or.inr hs.symm, hl.symm, fun rf2 => ?_⟩
              dsimp only
              rw [ht, hu, hs]
          | none =>
              rw [hm2] at h
              dsimp only at h
              obtain ⟨r, hr3⟩ := method3_shape q d
              rw [hr3] at h
              simp at h
  | fail503 => dsimp only at h; simp at h
  | fail429 => dsimp only at h; simp at h
  | failConn m => dsimp only at h; simp at h
  | httpExn c => dsimp only at h; simp at h
  | otherExn m => dsimp only at h; simp at h
  | nameError => dsimp only at h; simp at h

/-- The method-2 anchor of the C4 counterexample: its only block ancestor is a
`div` whose stripped text is `"abc"` (3 characters, far below 300). -/
def nodeC4 : Node :=
  { tag := "a", href := some "/request/foo", textStrip := "My FOI Request",
    textRaw := "", ancestors := [⟨"div", "abc", "abc"⟩] }

/-- A search page whose only element is `nodeC4` (no FOI-requests heading, so
method 2 applies), served successfully on the first attempt. -/
def envC4 : Env := { att := fun _ => .status 200 [nodeC4], rf := .exn }

/-- C4 counterexample: the fallback-anchor strategy appends an ellipsis even
though the container text `"abc"` is only 3 ≤ 300 characters long — refuting
"an ellipsis suffix is appended only when the source container text exceeded
300 characters". -/
theorem C4_counterexample :
    search_whatdotheyknow "q" envC4 =
      .five true "My FOI Request" "https://www.whatdotheyknow.com/request/foo" "abc..." [] ∧
    findParentTag ["div", "article", "section", "p"] nodeC4 = some ⟨"div", "abc", "abc"⟩ ∧
    ("abc" : String).length ≤ 300 ∧
    strEndsWith "abc..." "..." = true :=
  ⟨rfl, rfl, by decide, rfl⟩

/-- C4 amended: snippets from either strategy are at most 303 characters.
The heading strategy truncates to 300 plus an ellipsis exactly when the
parent text exceeds 300 characters and otherwise leaves it unchanged; the
fallback-anchor strategy truncates the container text to 300 and always
appends an ellipsis, and the snippet defaults to "FOI request found" only
when no `div`/`article`/`section`/`p` ancestor exists. -/
theorem C4_amended :
    (∀ n : Node, (method1Snippet n).length ≤ 303 ∧
      (∀ p, n.ancestors.head? = some p → p.textStrip.length ≤ 300 →
        method1Snippet n = p.textStrip) ∧
      (∀ p, n.ancestors.head? = some p → p.textStrip.length > 300 →
        method1Snippet n = strTake p.textStrip 300 ++ "...")) ∧
    (∀ n : Node, (method2Snippet n).length ≤ 303 ∧
      (∀ c, findParentTag ["div", "article", "section", "p"] n = some c →
        method2Snippet n = strTake c.textStrip 300 ++ "...") ∧
      (findParentTag ["div", "article", "section", "p"] n = none →
        orDefault (method2Snippet n) "FOI request found" = "FOI request found")) ∧
    (∀ (q : String) (env : Env) (t u s : String) (l : List Attachment),
      search_whatdotheyknow q env = .five true t u s l → s.length ≤ 303) := by
  have hlen : ∀ (x : String), (strTake x 300 ++ "...").length ≤ 303 := by
    intro x
    rw [strLen_append]
    have := strTake_length x 300
    have h3 : ("..." : String).length = 3 := rfl
    omega
  have hm1 : ∀ n : Node, (method1Snippet n).length ≤ 303 := by
    intro n
    unfold method1Snippet
    cases n.ancestors.head? with
    | none => decide
    | some p =>
        dsimp only
        split
        · exact hlen p.textStrip
        · omega
  have hm2 : ∀ n : Node, (method2Snippet n).length ≤ 303 := by
    intro n
    unfold method2Snippet
    cases findParentTag ["div", "article", "section", "p"] n with
    | none => decide
    | some c => exact hlen c.textStrip
  refine ⟨fun n => ⟨hm1 n, ?_, ?_⟩, fun n => ⟨hm2 n, ?_, ?_⟩, ?_⟩
  · intro p hp hle
    unfold method1Snippet
    rw [hp]
    dsimp only
    rw [if_neg (by omega)]
  · intro p hp hgt
    unfold method1Snippet
    rw [hp]
    dsimp only
    rw [if_pos hgt]
  · intro c hc
    unfold method2Snippet
    rw [hc]
  · intro hc
    unfold method2Snippet
    rw [hc]
    rfl
  · intro q env t u s l h
    obtain ⟨n, -, hs, -, -⟩ := found_result_shape q env t u s l h
    have hd : ∀ (x d : String), d.length ≤ 303 → x.length ≤ 303 →
        (orDefault x d).length ≤ 303 := by
      intro x d hdl hxl
      unfold orDefault
      split <;> assumption
    cases hs with
    | inl hs => rw [hs]; exact hd _ _ (by decide) (hm1 n)
    | inr hs => rw [hs]; exact hd _ _ (by decide) (hm2 n)

/-- C4 amended witness: the div ancestor with text `"abc"` instantiates the
heading-strategy clause (text unchanged, no ellipsis, when ≤ 300 chars). -/
theorem C4_amended_witness :
    method1Snippet ⟨"a", none, "", "", [⟨"div", "abc", "abc"⟩]⟩ = "abc" :=
  (C4_amended.1 _).2.1 ⟨"div", "abc", "abc"⟩ rfl (by decide)

/-- The seven-distinct-PDF-links result page of the C5 claim. -/
def c5doc : Doc :=
  [⟨"a", some "/f1.pdf", "", "", []⟩, ⟨"a", some "/f2.pdf", "", "", []⟩,
   ⟨"a", some "/f3.pdf", "", "", []⟩, ⟨"a", some "/f4.pdf", "", "", []⟩,
   ⟨"a", some "/f5.pdf", "", "", []⟩, ⟨"a", some "/f6.pdf", "", "", []⟩,
   ⟨"a", some "/f7.pdf", "", "", []⟩]

/-- C5: the attachment list is always capped at 5; on a page with 7 distinct
qualifying PDF links the full deduplicated collection has 7 entries but
exactly the first 5 in document order are returned. -/
theorem C5_cap_first_five :
    (∀ rf, (find_pdf_links_on_page rf).length ≤ 5) ∧
    (collectPdfLinks c5doc).length = 7 ∧
    find_pdf_links_on_page (.status 200 c5doc) =
      [⟨"f1.pdf", "https://www.whatdotheyknow.com/f1.pdf", "Size unknown"⟩,
       ⟨"f2.pdf", "https://www.whatdotheyknow.com/f2.pdf", "Size unknown"⟩,
       ⟨"f3.pdf", "https://www.whatdotheyknow.com/f3.pdf", "Size unknown"⟩,
       ⟨"f4.pdf", "https://www.whatdotheyknow.com/f4.pdf", "Size unknown"⟩,
       ⟨"f5.pdf", "https://www.whatdotheyknow.com/f5.pdf", "Size unknown"⟩] ∧
    find_pdf_links_on_page (.status 200 c5doc) = (collectPdfLinks c5doc).take 5 :=
  ⟨find_pdf_len_le5, rfl, rfl, rfl⟩

/-- C3: a result page holding the attachment link
`/response/1/attach/2/report.pdf` followed by its HTML-rendered duplicate
`/response/1/attach/html/2/report.pdf` yields exactly one attachment, whose
URL is the non-html variant — whatever the anchors' texts and ancestors. -/
theorem C3_html_duplicate (ts1 ts2 tr1 tr2 : String) (anc1 anc2 : List Anc) :
    (find_pdf_links_on_page (.status 200
        [⟨"a", some "/response/1/attach/2/report.pdf", ts1, tr1, anc1⟩,
         ⟨"a", some "/response/1/attach/html/2/report.pdf", ts2, tr2, anc2⟩])).length = 1 ∧
    (find_pdf_links_on_page (.status 200
        [⟨"a", some "/response/1/attach/2/report.pdf", ts1, tr1, anc1⟩,
         ⟨"a", some "/response/1/attach/html/2/report.pdf", ts2, tr2, anc2⟩])).map
      Attachment.url = ["https://www.whatdotheyknow.com/response/1/attach/2/report.pdf"] :=
  ⟨rfl, rfl⟩

/-! ## URL absoluteness (C6) -/

/-- Scheme scan helper: consumed characters must be letters, digits, `+`, `-`
or `.` until a colon is reached. -/
def hasSchemeTail : List Char → Bool
  | [] => false
  | ':' :: _ => true
  | c :: rest => (c.isAlphanum || c = '+' || c = '-' || c = '.') && hasSchemeTail rest

/-- Follows the spec words "an absolute URL (starts with a scheme)": the
string begins with an RFC-3986 scheme — a letter, then letters, digits,
`+`, `-` or `.`, then a colon.  Stated from the spec, to compare its notion
of absoluteness with the URLs the code produces. -/
def specHasScheme (s : String) : Bool :=
  match s.toList with
  | [] => false
  | c :: rest => c.isAlpha && hasSchemeTail rest

theorem isPrefixOf_append_left (p l r : List Char) (h : p.isPrefixOf l = true) :
    p.isPrefixOf (l ++ r) = true := by
  rw [List.isPrefixOf_iff_prefix] at h ⊢
  exact h.trans (List.prefix_append l r)

theorem startsWith_base_http (x : String) :
    strStartsWith (baseOrigin ++ x) "http" = true :=
  isPrefixOf_append_left "http".toList baseOrigin.data x.data (by decide)

theorem startsWith_baseSlash_http (x : String) :
    strStartsWith (baseOrigin ++ "/" ++ x) "http" = true :=
  isPrefixOf_append_left "http".toList (baseOrigin ++ "/").data x.data (by decide)

theorem specHasScheme_base (x : String) : specHasScheme (baseOrigin ++ x) = true := rfl

theorem specHasScheme_baseSlash (x : String) :
    specHasScheme (baseOrigin ++ "/" ++ x) = true := rfl

/-- Whatever the href, the URL produced by the resolution step starts with
the four characters `http`. -/
theorem resolveHref_starts_http (h : String) :
    strStartsWith (resolveHref h) "http" = true := by
  unfold resolveHref
  split
  · exact startsWith_base_http h
  · split
    · exact startsWith_baseSlash_http h
    · next hn =>
        cases hb : strStartsWith h "http" with
        | false => rw [hb] at hn; simp at hn
        | true => rfl

/-- Propagate a property of every built attachment through the accumulation
loop. -/
theorem foldl_processLink_mem (P : Attachment → Prop)
    (hP : ∀ n h nm, P (mkAttachment n h nm)) :
    ∀ (L : List (Node × String)) (acc : List Attachment),
      (∀ a ∈ acc, P a) → ∀ a ∈ List.foldl processLink acc L, P a := by
  intro L
  induction L with
  | nil => exact fun acc hacc => hacc
  | cons nh rest ih =>
      intro acc hacc
      apply ih
      intro a ha
      simp only [processLink] at ha
      split at ha
      · exact hacc a ha
      · split at ha
        · split at ha
          · exact hacc a ha
          · rcases List.mem_append.1 ha with h1 | h1
            · exact hacc a h1
            · rw [List.mem_singleton] at h1
              rw [h1]
              exact hP _ _ _
        · exact hacc a ha

/-- Every attachment URL ever returned starts with `http`. -/
theorem find_pdf_url_http (rf : ResultFetch) :
    ∀ a ∈ find_pdf_links_on_page rf, strStartsWith a.url "http" = true := by
  intro a ha
  cases rf with
  | exn => simp [find_pdf_links_on_page] at ha
  | status code doc =>
      unfold find_pdf_links_on_page at ha
      dsimp only at ha
      split at ha
      · simp at ha
      · have ha2 := (List.take_sublist 5 _).subset ha
        exact foldl_processLink_mem (fun a => strStartsWith a.url "http" = true)
          (fun n h nm => resolveHref_starts_http h) (allAnchors doc) []
          (by intro x hx; simp at hx) a ha2

/-- An href that is neither scheme-like nor root-relative, surfaced verbatim. -/
def c6doc : Doc := [⟨"a", some "httpx.pdf", "x", "", []⟩]

/-- C6 counterexample: the bare-relative href `httpx.pdf` (no scheme, no
leading slash) is not resolved against the site origin — it is returned
verbatim as the attachment URL, and it does not start with a scheme. -/
theorem C6_counterexample :
    find_pdf_links_on_page (.status 200 c6doc) =
      [⟨"httpx.pdf", "httpx.pdf", "Size unknown"⟩] ∧
    specHasScheme "httpx.pdf" = false ∧
    strStartsWith "httpx.pdf" "/" = false :=
  ⟨rfl, by decide, rfl⟩

/-- C6 amended: every found-result URL is the scheme-bearing site origin plus
the href, hence absolute; every attachment URL starts with `http`; hrefs that
are root-relative or do not begin with `http` are resolved against the fixed
site origin (yielding scheme-bearing absolute URLs), while hrefs beginning
with `http` are passed through verbatim (absolute whenever the href was). -/
theorem C6_amended :
    (∀ (rf : ResultFetch), ∀ a ∈ find_pdf_links_on_page rf,
      strStartsWith a.url "http" = true) ∧
    (∀ h : String, strStartsWith h "/" = true →
      resolveHref h = baseOrigin ++ h ∧ specHasScheme (resolveHref h) = true) ∧
    (∀ h : String, strStartsWith h "/" = false → strStartsWith h "http" = false →
      resolveHref h = baseOrigin ++ "/" ++ h ∧ specHasScheme (resolveHref h) = true) ∧
    (∀ h : String, strStartsWith h "http" = true → strStartsWith h "/" = false →
      resolveHref h = h) ∧
    (∀ (q : String) (env : Env) (t u s : String) (l : List Attachment),
      search_whatdotheyknow q env = .five true t u s l → specHasScheme u = true) := by
  refine ⟨find_pdf_url_http, ?_, ?_, ?_, ?_⟩
  · intro h hs
    unfold resolveHref
    rw [if_pos hs]
    exact ⟨rfl, specHasScheme_base h⟩
  · intro h hs hh
    unfold resolveHref
    rw [if_neg (by rw [hs]; exact Bool.false_ne_true), if_pos (by rw [hh]; rfl)]
    exact ⟨rfl, specHasScheme_baseSlash h⟩
  · intro h hh hs
    unfold resolveHref
    rw [if_neg (by rw [hs]; exact Bool.false_ne_true), if_neg (by rw [hh]; simp)]
  · intro q env t u s l h
    obtain ⟨n, hu, -, -, -⟩ := found_result_shape q env t u s l h
    rw [hu]
    exact specHasScheme_base _

/-- C6 amended witness: the spec's own example hrefs instantiate the clauses —
`/request/...` and `attach/2/x.pdf` resolve to origin-prefixed absolute URLs,
and an `http`-prefixed href passes through. -/
theorem C6_amended_witness :
    resolveHref "/request/foo" = "https://www.whatdotheyknow.com/request/foo" ∧
    resolveHref "attach/2/x.pdf" = "https://www.whatdotheyknow.com/attach/2/x.pdf" ∧
    resolveHref "https://example.org/a.pdf" = "https://example.org/a.pdf" :=
  ⟨(C6_amended.2.1 "/request/foo" rfl).1,
   (C6_amended.2.2.1 "attach/2/x.pdf" rfl rfl).1,
   C6_amended.2.2.2.1 "https://example.org/a.pdf" rfl rfl⟩

/-! ## Deduplication (C7) -/

/-- Two attachments differing in both name and URL. -/
def attDistinct (a b : Attachment) : Prop := a.name ≠ b.name ∧ a.url ≠ b.url

/-- The accumulation loop preserves pairwise distinctness: an attachment is
only appended after the duplicate scan on name-or-URL fails. -/
theorem foldl_processLink_pairwise :
    ∀ (L : List (Node × String)) (acc : List Attachment),
      acc.Pairwise attDistinct → (List.foldl processLink acc L).Pairwise attDistinct := by
  intro L
  induction L with
  | nil => exact fun acc h => h
  | cons nh rest ih =>
      intro acc hacc
      apply ih
      simp only [processLink]
      split
      · exact hacc
      · split
        · split
          · exact hacc
          · next hdup =>
              rw [Bool.not_eq_true] at hdup
              rw [List.pairwise_append]
              refine ⟨hacc, by simp [attDistinct], ?_⟩
              intro x hx y hy
              rw [List.mem_singleton] at hy
              subst hy
              have hx2 := List.any_eq_false.1 hdup x hx
              simp only [Bool.or_eq_true, beq_iff_eq, not_or] at hx2
              exact ⟨hx2.1, hx2.2⟩
        · exact hacc

/-- Two anchors with different hrefs and different texts resolving to the same
URL. -/
def c7doc : Doc :=
  [⟨"a", some "/doc/x.pdf", "First", "", []⟩, ⟨"a", some "doc/x.pdf", "Second", "", []⟩]

/-- C7: the returned attachment list is pairwise distinct in both name and
URL, and two links with identical resolved URLs but different anchor text
yield a single attachment. -/
theorem C7_pairwise_distinct :
    (∀ rf, (find_pdf_links_on_page rf).Pairwise attDistinct) ∧
    find_pdf_links_on_page (.status 200 c7doc) =
      [⟨"x.pdf", "https://www.whatdotheyknow.com/doc/x.pdf", "Size unknown"⟩] := by
  refine ⟨?_, rfl⟩
  intro rf
  cases rf with
  | exn => exact List.Pairwise.nil
  | status code doc =>
      unfold find_pdf_links_on_page
      dsimp only
      split
      · exact List.Pairwise.nil
      · exact List.Pairwise.sublist (List.take_sublist 5 _)
          (foldl_processLink_pairwise (allAnchors doc) [] List.Pairwise.nil)

/-! ## Non-fatal attachment failures (C8) -/

/-- Every result of `search_whatdotheyknow` shaped as a 5-tuple carries either
the empty attachment list or exactly the output of `find_pdf_links_on_page`. -/
theorem five_links_cases (q : String) (env : Env) (b : Bool) (t u s : String)
    (l : List Attachment) (h : search_whatdotheyknow q env = .five b t u s l) :
    l = [] ∨ l = find_pdf_links_on_page env.rf := by
  unfold search_whatdotheyknow parsePhase at h
  rcases hrun : runFetch env.att 0 maxRetries with ⟨fr, n2, s2⟩
  rw [hrun] at h
  cases fr with
  | ok d =>
      dsimp only at h
      cases hm1 : method1Anchor d with
      | some a =>
          rw [hm1] at h
          dsimp only at h
          simp only [PyRet.five.injEq] at h
          exact Or.inr h.2.2.2.2.symm
      | none =>
          rw [hm1] at h
          dsimp only at h
          cases hm2 : d.find? method2Pred with
          | some a =>
              rw [hm2] at h
              dsimp only at h
              simp only [PyRet.five.injEq] at h
              exact Or.inr h.2.2.2.2.symm
          | none =>
              rw [hm2] at h
              dsimp only at h
              obtain ⟨r, hr3⟩ := method3_shape q d
              rw [hr3] at h
              simp only [PyRet.five.injEq] at h
              exact Or.inl h.2.2.2.2.symm
  | fail503 => dsimp only at h; simp at h
  | fail429 => dsimp only at h; simp at h
  | failConn m => dsimp only at h; simp at h
  | httpExn c =>
      dsimp only at h
      simp only [PyRet.five.injEq] at h
      exact Or.inl h.2.2.2.2.symm
  | otherExn m =>
      dsimp only at h
      simp only [PyRet.five.injEq] at h
      exact Or.inl h.2.2.2.2.symm
  | nameError =>
      dsimp only at h
      simp only [PyRet.five.injEq] at h
      exact Or.inl h.2.2.2.2.symm

/-- C8: a failed result-page fetch (exception or non-200 status) yields the
empty attachment list; the first four components of the engine's result never
depend on the result-page fetch; and a found result survives an attachment
failure unchanged, with attachments emptied. -/
theorem C8_attachment_failures_nonfatal :
    find_pdf_links_on_page .exn = [] ∧
    (∀ (c : Nat) (d : Doc), c ≠ 200 → find_pdf_links_on_page (.status c d) = []) ∧
    (∀ (q : String) (a : Nat → Attempt) (r1 r2 : ResultFetch),
      (search_whatdotheyknow q ⟨a, r1⟩).core = (search_whatdotheyknow q ⟨a, r2⟩).core) ∧
    (∀ (q : String) (env : Env) (t u s : String) (l : List Attachment),
      search_whatdotheyknow q env = .five true t u s l →
      search_whatdotheyknow q { att := env.att, rf := .exn } = .five true t u s []) := by
  refine ⟨rfl, ?_, ?_, ?_⟩
  · intro c d hc
    unfold find_pdf_links_on_page
    dsimp only
    rw [if_pos hc]
  · intro q a r1 r2
    unfold search_whatdotheyknow parsePhase
    dsimp only
    rcases runFetch a 0 maxRetries with ⟨fr, n2, s2⟩
    cases fr with
    | ok d =>
        dsimp only
        cases method1Anchor d with
        | some x => rfl
        | none =>
            dsimp only
            cases d.find? method2Pred with
            | some x => rfl
            | none => rfl
    | fail503 => rfl
    | fail429 => rfl
    | failConn m => rfl
    | httpExn c => rfl
    | otherExn m => rfl
    | nameError => rfl
  · intro q env t u s l h
    obtain ⟨n, -, -, -, hall⟩ := found_result_shape q env t u s l h
    exact hall .exn

/-- C8 witness: a 404 on the result page yields no attachments, and the
concrete found result of `envC4` is preserved verbatim when the attachment
fetch raises. -/
theorem C8_attachment_failures_nonfatal_witness :
    find_pdf_links_on_page (.status 404 []) = [] ∧
    search_whatdotheyknow "q" { att := envC4.att, rf := .exn } =
      .five true "My FOI Request" "https://www.whatdotheyknow.com/request/foo" "abc..." [] :=
  ⟨C8_attachment_failures_nonfatal.2.1 404 [] (by decide),
   C8_attachment_failures_nonfatal.2.2.2 "q" envC4 "My FOI Request"
     "https://www.whatdotheyknow.com/request/foo" "abc..." [] rfl⟩

/-! ## Size normalization (C9) -/

/-- A result page whose only PDF link sits in an `li` mentioning `9.5M`. -/
def c9doc1 : Doc :=
  [⟨"a", some "/r/a.pdf", "a.pdf", "", [⟨"li", "Report a.pdf 9.5M", "Report a.pdf 9.5M"⟩]⟩]

/-- A result page whose only PDF link sits in a `div` mentioning `175K`. -/
def c9doc2 : Doc :=
  [⟨"a", some "/r/b.pdf", "b.pdf", "", [⟨"div", "b.pdf 175K", "b.pdf 175K"⟩]⟩]

/-- A result page whose only PDF link has a container with no size token. -/
def c9doc3 : Doc :=
  [⟨"a", some "/r/c.pdf", "c.pdf", "", [⟨"li", "no size here", "no size here"⟩]⟩]

/-- C9: `9.5M` in the container text normalizes to `9.5 MB`, `175K` to
`175 KB` (and `G` to `GB`); with no matching token the size is exactly
`Size unknown` — both through the full pipeline and on the size matcher. -/
theorem C9_size_normalization :
    (find_pdf_links_on_page (.status 200 c9doc1)).map Attachment.size = ["9.5 MB"] ∧
    (find_pdf_links_on_page (.status 200 c9doc2)).map Attachment.size = ["175 KB"] ∧
    (find_pdf_links_on_page (.status 200 c9doc3)).map Attachment.size = ["Size unknown"] ∧
    sizeFromText "9.5M" = some "9.5 MB" ∧
    sizeFromText "175K" = some "175 KB" ∧
    sizeFromText "2.5G" = some "2.5 GB" ∧
    sizeFromText "no size here" = none :=
  ⟨rfl, rfl, rfl, rfl, rfl, rfl, rfl⟩

/-! ## The unreachable "showing first 3 of N" note (C10) -/

/-- C10: the attachment list reaching the note check always has length at
most 5, so the guard `len(pdf_links) > 10` of `search_command` is false in
every reachable state. -/
theorem C10_note_unreachable :
    (∀ rf, (find_pdf_links_on_page rf).length ≤ 5 ∧
      showNoteGuard (find_pdf_links_on_page rf) = false) ∧
    (∀ (q : String) (env : Env) (b : Bool) (t u s : String) (l : List Attachment),
      search_whatdotheyknow q env = .five b t u s l →
      l.length ≤ 5 ∧ showNoteGuard l = false) := by
  have hg : ∀ l : List Attachment, l.length ≤ 5 → showNoteGuard l = false := by
    intro l hl
    unfold showNoteGuard
    rw [decide_eq_false_iff_not]
    omega
  refine ⟨fun rf => ⟨find_pdf_len_le5 rf, hg _ (find_pdf_len_le5 rf)⟩, ?_⟩
  intro q env b t u s l h
  rcases five_links_cases q env b t u s l h with h1 | h1
  · rw [h1]
    exact ⟨by simp, hg [] (by simp)⟩
  · rw [h1]
    exact ⟨find_pdf_len_le5 _, hg _ (find_pdf_len_le5 _)⟩

/-- C10 witness: the `envC4` run instantiates the reachable-state clause. -/
theorem C10_note_unreachable_witness :
    (([] : List Attachment).length ≤ 5 ∧ showNoteGuard [] = false) :=
  C10_note_unreachable.2 "q" envC4 true "My FOI Request"
    "https://www.whatdotheyknow.com/request/foo" "abc..." [] rfl

end WDTK
